import Mathlib

/-!
Verification of the Antrea BPF prototype (packages `prototype`, `filter`, `compare`).

This file gives a shallow embedding of the code generator
(`src/prototype/generator.go`, package `prototype`: `buildAntreaBPF`,
`UpdateJumpTargets`, `ipToUint32`, …), of the filter data model
(`src/filter/types.go`), and of the semantic comparison engine
(package `compare` in the same source file: `analyzeInstruction`,
`compareSemantics`, `analyzeStructuralDifferences`, `calculateVerdict`,
`Compare`), followed by theorems about the embedded definitions.

Modelling conventions:
* Go machine integers (`uint8`, `uint16`, `uint32`, `int`) are modelled as
  `Nat` (or `Int` where the Go value can be negative), with an explicit
  `% 2^w` at each point where the Go code performs a narrowing conversion.
* Go's `float64` score is modelled as `ℚ`.  The only float operations the
  source performs are `float64(a)/float64(b)` for small list lengths
  (each bounded by the number of purpose tags, 18, plus one) and
  comparisons against the literals 0.8, 0.6, 0.4.  For denominators that
  small, the IEEE-754 quotient differs from the exact rational by less
  than 2⁻⁵², far less than the distance from any non-equal quotient to a
  threshold, so rational arithmetic decides each comparison exactly as
  the float code does.
* Go map iteration order is unspecified; the entry lists produced by
  `compareSemantics` are modelled by iterating the purpose tags in their
  declaration order.  Every property proved here (list emptiness, entry
  membership, lengths, substring search) is independent of that order.
* A Go runtime panic (out-of-range slice index) is modelled as `none` of
  an `Option` result.
-/

set_option maxRecDepth 4000

/-- One BPF instruction, mirroring `prototype.BPFInstruction` (and the
identical `tcpdump.BPFInstruction` wire shape of spec §6): opcode `Code`
(u16), branch fields `JT`/`JF` (u8), immediate `K` (u32). -/
structure BPFInstruction where
  Code : Nat
  JT : Nat
  JF : Nat
  K : Nat
deriving DecidableEq

/-- `BPFBuilder.UpdateJumpTargets` restricted to non-negative indices:
if the index is in range the branch fields of that instruction are
overwritten, otherwise the list is returned unchanged (the Go guard is
`instructionIndex < len(b.instructions)`). -/
def updateJumpTargets : List BPFInstruction → Nat → Nat → Nat → List BPFInstruction
  | [], _, _, _ => []
  | i :: rest, 0, jt, jf => ⟨i.Code, jt, jf, i.K⟩ :: rest
  | i :: rest, n + 1, jt, jf => i :: updateJumpTargets rest n jt jf

/-- `BPFBuilder.UpdateJumpTargets` with its actual Go signature, where
`instructionIndex` is a signed `int`.  The Go guard `instructionIndex <
len(b.instructions)` lets any negative index through to the slice access
`b.instructions[instructionIndex]`, which panics at runtime; the panic is
modelled as `none`.  Indices `≥ len` skip the branch: a silent no-op. -/
def UpdateJumpTargetsGo (insts : List BPFInstruction) (instructionIndex : Int)
    (jt jf : Nat) : Option (List BPFInstruction) :=
  if instructionIndex < (insts.length : Int) then
    if 0 ≤ instructionIndex then
      some (updateJumpTargets insts instructionIndex.toNat jt jf)
    else
      none
  else
    some insts

/-- `filter.PacketFilter` (src/filter/types.go).  Ports are Go `int`s
constrained to 0–65535 by `Validate`; they are modelled as `Nat`. -/
structure PacketFilter where
  Protocol : String
  SrcIP : String
  DstIP : String
  SrcPort : Nat
  DstPort : Nat
deriving DecidableEq

/-- The post-state of `filter.PacketFilter.Validate` succeeding
(src/filter/types.go): protocol already lower-cased and one of the three
known names or empty, ports in range, at least one criterion present, and
no ports together with ICMP.  The IP-syntax check (`net.ParseIP`) is an
external collaborator whose outcome the generator never consumes, so it
is not part of this predicate. -/
abbrev ValidFilter (f : PacketFilter) : Prop :=
  (f.Protocol = "" ∨ f.Protocol = "tcp" ∨ f.Protocol = "udp" ∨ f.Protocol = "icmp") ∧
  f.SrcPort ≤ 65535 ∧ f.DstPort ≤ 65535 ∧
  (f.Protocol ≠ "" ∨ f.SrcIP ≠ "" ∨ f.DstIP ≠ "" ∨ f.SrcPort ≠ 0 ∨ f.DstPort ≠ 0) ∧
  (f.Protocol = "icmp" → f.SrcPort = 0 ∧ f.DstPort = 0)

/-- The protocol-number switch inside `buildAntreaBPF`: the Go local
`var protocolNum uint32` stays 0 when no case matches. -/
def protocolNum (p : String) : Nat :=
  if p = "tcp" then 6
  else if p = "udp" then 17
  else if p = "icmp" then 1
  else 0

/-- `prototype.ipToUint32`: the source's deliberately simplified mock
conversion — three hardcoded addresses, every other string mapped to the
fixed value 0xc0a80001 (192.168.0.1). -/
def ipToUint32 (ip : String) : Nat :=
  if ip = "192.168.1.1" then 0xc0a80101
  else if ip = "10.0.0.1" then 0x0a000001
  else if ip = "127.0.0.1" then 0x7f000001
  else 0xc0a80001

/-- Splits a character list at every dot (the pieces, in order). -/
def splitDots : List Char → List (List Char)
  | [] => [[]]
  | c :: cs =>
      if c = '.' then [] :: splitDots cs
      else
        match splitDots cs with
        | [] => [[c]]
        | p :: ps => (c :: p) :: ps

/-- Reads a decimal digit string left to right. -/
def decAux : List Char → Nat → Option Nat
  | [], acc => some acc
  | c :: cs, acc =>
      if c.isDigit then decAux cs (acc * 10 + (c.toNat - 48)) else none

/-- The value of a nonempty all-digit character list, `none` otherwise. -/
def decList : List Char → Option Nat
  | [] => none
  | c :: cs => decAux (c :: cs) 0

/-- Modelled from the spec: the "32-bit big-endian value of the
dotted-quad" of an IPv4 address string (spec §4.2, "the address's integer
form"): four dot-separated decimal components, each between 0 and 255,
assembled big-endian.  The repository contains no real dotted-quad parser
— its `ipToUint32` is a mock — so this definition follows the spec's
words and exists to be compared against `ipToUint32`. -/
def ipv4ToNat (s : String) : Option Nat :=
  match (splitDots s.toList).map decList with
  | [some a, some b, some c, some d] =>
      if a ≤ 255 ∧ b ≤ 255 ∧ c ≤ 255 ∧ d ≤ 255 then
        some (a * 16777216 + b * 65536 + c * 256 + d)
      else none
  | _ => none

/-- Result of `buildAntreaBPF`: the final instruction list of the
builder together with the check positions the Go function records in
local variables (`ipCheckIdx`, `protocolCheckIdx`, `srcIPCheckIdx`,
`dstIPCheckIdx`, `fragCheckIdx`, `portCheckIndices`, `acceptIdx`,
`rejectIdx`), exposed here so the backpatching behaviour can be stated.
Indices that Go initialises to the sentinel -1 are `Int`. -/
structure BuildResult where
  instructions : List BPFInstruction
  ipCheckIdx : Nat
  protocolCheckIdx : Int
  srcIPCheckIdx : Int
  dstIPCheckIdx : Int
  fragCheckIdx : Int
  portCheckIndices : List Nat
  acceptIdx : Nat
  rejectIdx : Nat
deriving DecidableEq

/-- `BPFBuilder.AddInstruction` on the builder state `(instructions,
currentOffset)`: appends the instruction, increments the offset, and
returns the offset from before the append.  Since only `AddInstruction`
ever appends, `currentOffset` always equals `len(b.instructions)`. -/
def AddInstruction (b : List BPFInstruction × Nat) (code jt jf k : Nat) :
    (List BPFInstruction × Nat) × Nat :=
  ((b.1 ++ [⟨code, jt, jf, k⟩], b.2 + 1), b.2)

/-- The body of `prototype.buildAntreaBPF` (src/prototype/generator.go:120-246),
abstracted over the five field-presence tests and the immediate values the
Go code derives from the filter (`buildAntreaBPF` below instantiates them;
this two-layer phrasing keeps the branch conditions as plain booleans).
The narrowing `uint8(...)` conversions of the Go source are the `% 256`
occurrences; the Nat subtractions `acceptIdx - p` agree with Go's signed
subtraction because the terminal pair is appended after every recorded
check.  The `len(builder.instructions)` read in the fragment patch is the
builder's offset field, which `AddInstruction` keeps equal to the list
length.  The descriptive-only side channels (the `reasoning` string and
the optimization notes, spec §4.2 "descriptive only") are omitted. -/
def buildCore (hasProto : Bool) (pnum : Nat) (hasSrc : Bool) (srcv : Nat)
    (hasDst : Bool) (dstv : Nat) (hasSport : Bool) (sport : Nat)
    (hasDport : Bool) (dport : Nat) : BuildResult :=
  let b0 : List BPFInstruction × Nat := ([], 0)
  -- Concept 1: ldh [12]; jeq #0x800
  let r1 := AddInstruction b0 0x28 0 0 0x0000000c
  let r2 := AddInstruction r1.1 0x15 0 0 0x00000800
  let ipCheckIdx := r2.2
  -- Concept 2: protocol gate
  let s2 : (List BPFInstruction × Nat) × Int :=
    if hasProto then
      let a1 := AddInstruction r2.1 0x30 0 0 0x00000017
      let a2 := AddInstruction a1.1 0x15 0 0 pnum
      (a2.1, (a2.2 : Int))
    else (r2.1, -1)
  let protocolCheckIdx := s2.2
  -- Concept 3: address gates (the Go outer `if f.SrcIP != "" || f.DstIP != ""`
  -- only gates the reasoning string; the emission is these two inner ifs)
  let s3 : (List BPFInstruction × Nat) × Int :=
    if hasSrc then
      let a1 := AddInstruction s2.1 0x20 0 0 0x0000001a
      let a2 := AddInstruction a1.1 0x15 0 0 srcv
      (a2.1, (a2.2 : Int))
    else (s2.1, -1)
  let srcIPCheckIdx := s3.2
  let s4 : (List BPFInstruction × Nat) × Int :=
    if hasDst then
      let a1 := AddInstruction s3.1 0x20 0 0 0x0000001e
      let a2 := AddInstruction a1.1 0x15 0 0 dstv
      (a2.1, (a2.2 : Int))
    else (s3.1, -1)
  let dstIPCheckIdx := s4.2
  -- Concept 4: fragment-aware port gate
  let s5 : (List BPFInstruction × Nat) × Int × List Nat :=
    if hasSport || hasDport then
      let a1 := AddInstruction s4.1 0x28 0 0 0x00000014
      let a2 := AddInstruction a1.1 0x45 0 0 0x00001fff
      let a3 := AddInstruction a2.1 0xb1 0 0 0x0000000e
      let c : (List BPFInstruction × Nat) × List Nat :=
        if hasSport then
          let d1 := AddInstruction a3.1 0x48 0 0 0x0000000e
          let d2 := AddInstruction d1.1 0x15 0 0 sport
          (d2.1, [d2.2])
        else (a3.1, [])
      let e : (List BPFInstruction × Nat) × List Nat :=
        if hasDport then
          let d1 := AddInstruction c.1 0x48 0 0 0x00000010
          let d2 := AddInstruction d1.1 0x15 0 0 dport
          (d2.1, c.2 ++ [d2.2])
        else c
      -- rejectOffset := uint8(len(builder.instructions) + 1)
      let rejectOffset := (e.1.2 + 1) % 256
      ((updateJumpTargets e.1.1 a2.2 rejectOffset 0, e.1.2), (a2.2 : Int), e.2)
    else (s4.1, -1, [])
  let fragCheckIdx := s5.2.1
  let portCheckIndices := s5.2.2
  -- Concept 5: terminal pair
  let r6 := AddInstruction s5.1 0x06 0 0 0x00040000
  let acceptIdx := r6.2
  let r7 := AddInstruction r6.1 0x06 0 0 0x00000000
  let rejectIdx := r7.2
  let l8 := r7.1.1
  -- final backpatching pass
  let l9 := updateJumpTargets l8 ipCheckIdx
      ((acceptIdx - ipCheckIdx) % 256) ((rejectIdx - ipCheckIdx) % 256)
  let l10 :=
    if 0 ≤ protocolCheckIdx then
      updateJumpTargets l9 protocolCheckIdx.toNat
        ((acceptIdx - protocolCheckIdx.toNat) % 256) ((rejectIdx - protocolCheckIdx.toNat) % 256)
    else l9
  let l11 :=
    if 0 ≤ srcIPCheckIdx then
      updateJumpTargets l10 srcIPCheckIdx.toNat
        ((acceptIdx - srcIPCheckIdx.toNat) % 256) ((rejectIdx - srcIPCheckIdx.toNat) % 256)
    else l10
  let l12 :=
    if 0 ≤ dstIPCheckIdx then
      updateJumpTargets l11 dstIPCheckIdx.toNat
        ((acceptIdx - dstIPCheckIdx.toNat) % 256) ((rejectIdx - dstIPCheckIdx.toNat) % 256)
    else l11
  let l13 := portCheckIndices.foldl
      (fun acc p => updateJumpTargets acc p ((acceptIdx - p) % 256) ((rejectIdx - p) % 256)) l12
  ⟨l13, ipCheckIdx, protocolCheckIdx, srcIPCheckIdx, dstIPCheckIdx,
    fragCheckIdx, portCheckIndices, acceptIdx, rejectIdx⟩

/-- `prototype.buildAntreaBPF`: `buildCore` at the presence tests and
immediate values the Go function reads off the filter — `f.Protocol != ""`
with the protocol-number switch, `f.SrcIP != ""` / `f.DstIP != ""` with
`ipToUint32`, and `f.SrcPort != 0` / `f.DstPort != 0` with the
`uint32(...)` narrowing of the ports.  (Go computes each value inside the
corresponding branch; computing it unconditionally here is equivalent
because `buildCore` reads it only under the same flag.) -/
def buildAntreaBPF (f : PacketFilter) : BuildResult :=
  buildCore (f.Protocol ≠ "") (protocolNum f.Protocol)
    (f.SrcIP ≠ "") (ipToUint32 f.SrcIP)
    (f.DstIP ≠ "") (ipToUint32 f.DstIP)
    (f.SrcPort ≠ 0) (f.SrcPort % 4294967296)
    (f.DstPort ≠ 0) (f.DstPort % 4294967296)

/-- `prototype.buildFilterDescription`. -/
def buildFilterDescription (f : PacketFilter) : String :=
  String.intercalate " "
    ((if f.Protocol ≠ "" then [f.Protocol] else []) ++
     (if f.SrcIP ≠ "" then ["src=" ++ f.SrcIP] else []) ++
     (if f.DstIP ≠ "" then ["dst=" ++ f.DstIP] else []) ++
     (if f.SrcPort ≠ 0 then ["sport=" ++ toString f.SrcPort] else []) ++
     (if f.DstPort ≠ 0 then ["dport=" ++ toString f.DstPort] else []))

/-- `prototype.BPFCode` restricted to the fields the comparison engine and
the claims consume (the `Reasoning`/`Optimizations` free-text channels are
descriptive only, spec §3). -/
structure BPFCode where
  Instructions : List BPFInstruction
  FilterExpr : String
  InstructionCount : Nat
deriving DecidableEq

/-- `prototype.GenerateBPF`: runs the builder and packages the program. -/
def GenerateBPF (f : PacketFilter) : BPFCode :=
  let r := buildAntreaBPF f
  ⟨r.instructions, buildFilterDescription f, r.instructions.length⟩

/-- Purpose tags of package `compare` (`InstructionType`), in declaration
order. -/
inductive InstructionType where
  | LoadEtherType
  | CheckIP
  | LoadProtocol
  | CheckProtocol
  | LoadSourceIP
  | CheckSourceIP
  | LoadDestIP
  | CheckDestIP
  | LoadFragmentInfo
  | CheckFragment
  | LoadHeaderLength
  | LoadSourcePort
  | LoadDestPort
  | CheckSourcePort
  | CheckDestPort
  | Accept
  | Reject
  | Unknown
deriving DecidableEq

/-- `InstructionType.String()`: the Go method indexes a names array; every
declared tag is in range, so it is the total map below. -/
def typeName : InstructionType → String
  | .LoadEtherType => "Load Ethernet Type"
  | .CheckIP => "Check IP Protocol"
  | .LoadProtocol => "Load IP Protocol"
  | .CheckProtocol => "Check Protocol"
  | .LoadSourceIP => "Load Source IP"
  | .CheckSourceIP => "Check Source IP"
  | .LoadDestIP => "Load Dest IP"
  | .CheckDestIP => "Check Dest IP"
  | .LoadFragmentInfo => "Load Fragment Info"
  | .CheckFragment => "Check Fragment"
  | .LoadHeaderLength => "Load Header Length"
  | .LoadSourcePort => "Load Source Port"
  | .LoadDestPort => "Load Dest Port"
  | .CheckSourcePort => "Check Source Port"
  | .CheckDestPort => "Check Dest Port"
  | .Accept => "Accept Packet"
  | .Reject => "Reject Packet"
  | .Unknown => "Unknown"

/-- All purpose tags in declaration order; stands in for Go's iteration
over the tag-count maps (Go map order is unspecified, see the header). -/
def allTypes : List InstructionType :=
  [.LoadEtherType, .CheckIP, .LoadProtocol, .CheckProtocol,
   .LoadSourceIP, .CheckSourceIP, .LoadDestIP, .CheckDestIP,
   .LoadFragmentInfo, .CheckFragment, .LoadHeaderLength,
   .LoadSourcePort, .LoadDestPort, .CheckSourcePort, .CheckDestPort,
   .Accept, .Reject, .Unknown]

/-- Lower-case hexadecimal of `n` (Go `%x`). -/
def hexStr (n : Nat) : String :=
  ⟨Nat.toDigits 16 n⟩

/-- Zero-padded hexadecimal of width `w` (Go `%0wx`). -/
def hexPad (w n : Nat) : String :=
  let d := Nat.toDigits 16 n
  ⟨List.replicate (w - d.length) '0' ++ d⟩

/-- `compare.SemanticInstruction` (field `Type` is spelled `type`, `Type`
being a Lean keyword). -/
structure SemanticInstruction where
  type : InstructionType
  Value : Nat
  Description : String
  Index : Nat
deriving DecidableEq

/-- `compare.analyzeInstruction`: opcode-dispatched, then
immediate-dispatched classification of one instruction.  The branch
fields `jt`/`jf` are parameters the Go function declares and never
reads. -/
def analyzeInstruction (code jt jf : Nat) (k : Nat) (index : Nat) : SemanticInstruction :=
  if code = 0x28 then
    if k = 0x0000000c then ⟨.LoadEtherType, k, "Load Ethernet type field", index⟩
    else if k = 0x00000014 then ⟨.LoadFragmentInfo, k, "Load IP fragment information", index⟩
    else ⟨.Unknown, k, "Load half-word from offset 0x" ++ hexStr k, index⟩
  else if code = 0x30 then
    if k = 0x00000017 then ⟨.LoadProtocol, k, "Load IP protocol field", index⟩
    else ⟨.Unknown, k, "Load byte from offset 0x" ++ hexStr k, index⟩
  else if code = 0x20 then
    if k = 0x0000001a then ⟨.LoadSourceIP, k, "Load source IP address", index⟩
    else if k = 0x0000001e then ⟨.LoadDestIP, k, "Load destination IP address", index⟩
    else ⟨.Unknown, k, "Load word from offset 0x" ++ hexStr k, index⟩
  else if code = 0x48 then
    if k = 0x0000000e then ⟨.LoadSourcePort, k, "Load source port (with header offset)", index⟩
    else if k = 0x00000010 then ⟨.LoadDestPort, k, "Load destination port (with header offset)", index⟩
    else ⟨.Unknown, k, "Load half-word with offset 0x" ++ hexStr k, index⟩
  else if code = 0x15 then
    if k = 0x00000800 then ⟨.CheckIP, k, "Check if packet is IP (0x800)", index⟩
    else if k = 0x00000006 then ⟨.CheckProtocol, k, "Check if protocol is TCP (6)", index⟩
    else if k = 0x00000011 then ⟨.CheckProtocol, k, "Check if protocol is UDP (17)", index⟩
    else if k = 0x00000001 then ⟨.CheckProtocol, k, "Check if protocol is ICMP (1)", index⟩
    else if 1 ≤ k ∧ k ≤ 65535 then
      ⟨.CheckDestPort, k, "Check if destination port is " ++ toString k, index⟩
    else if 0xc0000000 ≤ k then
      ⟨.CheckSourceIP, k, "Check source IP (0x" ++ hexPad 8 k ++ ")", index⟩
    else ⟨.Unknown, k, "Check if value equals 0x" ++ hexPad 8 k, index⟩
  else if code = 0x45 then
    if k = 0x00001fff then ⟨.CheckFragment, k, "Check for IP fragmentation", index⟩
    else ⟨.Unknown, k, "Check if bits 0x" ++ hexPad 8 k ++ " are set", index⟩
  else if code = 0xb1 then
    ⟨.LoadHeaderLength, k, "Load IP header length into index register", index⟩
  else if code = 0x06 then
    if k = 0x00040000 ∨ 0 < k then
      ⟨.Accept, k, "Accept packet (return " ++ toString k ++ " bytes)", index⟩
    else ⟨.Reject, k, "Reject packet (return 0)", index⟩
  else ⟨.Unknown, k, "Unknown instruction: 0x" ++ hexPad 4 code, index⟩

/-- The indexed classification loop shared by `analyzeTcpdumpSemantics`
and `analyzePrototypeSemantics` (identical bodies), with the running
instruction index made explicit. -/
def analyzeFrom (i : Nat) : List BPFInstruction → List SemanticInstruction
  | [] => []
  | inst :: rest => analyzeInstruction inst.Code inst.JT inst.JF inst.K i :: analyzeFrom (i + 1) rest

/-- Classification of a whole program, starting at index 0. -/
def analyzeSemantics (instructions : List BPFInstruction) : List SemanticInstruction :=
  analyzeFrom 0 instructions

/-- Number of instructions carrying a given purpose tag: the tag-count
maps `tcpTypes`/`protoTypes` of `compareSemantics`. -/
def countType (sems : List SemanticInstruction) (t : InstructionType) : Nat :=
  (sems.filter (fun s => s.type = t)).length

/-- `compare.hasInstructionType`. -/
def hasType (sems : List SemanticInstruction) (t : InstructionType) : Bool :=
  sems.any (fun s => s.type = t)

/-- Leading-match test for the substring search. -/
def subAt : List Char → List Char → Bool
  | [], _ => true
  | _ :: _, [] => false
  | p :: ps, c :: cs => p == c && subAt ps cs

/-- Substring search on character lists. -/
def hasSubList (pat : List Char) : List Char → Bool
  | [] => pat.isEmpty
  | c :: cs => subAt pat (c :: cs) || hasSubList pat cs

/-- Go `strings.Contains s pat`. -/
def strContains (s pat : String) : Bool :=
  hasSubList pat.toList s.toList

/-- Entries of `result.Matches` produced by the tag loop of
`compareSemantics`: tags present on both sides with equal counts. -/
def matchList (semA semB : List SemanticInstruction) : List String :=
  allTypes.filterMap fun t =>
    let ca := countType semA t
    let cb := countType semB t
    if 0 < ca ∧ 0 < cb ∧ ca = cb then
      some ("Both implement " ++ typeName t ++ " (" ++ toString ca ++ " instructions)")
    else none

/-- Entries of `result.Differences`: tags present on both sides with
different counts. -/
def differenceList (semA semB : List SemanticInstruction) : List String :=
  allTypes.filterMap fun t =>
    let ca := countType semA t
    let cb := countType semB t
    if 0 < ca ∧ 0 < cb ∧ ca ≠ cb then
      some (typeName t ++ ": tcpdump has " ++ toString ca ++ ", prototype has " ++ toString cb)
    else none

/-- Entries of `result.MissingInPrototype`: tags present in the first
program only. -/
def missingList (semA semB : List SemanticInstruction) : List String :=
  allTypes.filterMap fun t =>
    let ca := countType semA t
    let cb := countType semB t
    if 0 < ca ∧ cb = 0 then
      some ("Missing " ++ typeName t ++ " (" ++ toString ca ++ " instructions)")
    else none

/-- Entries of `result.ExtraInPrototype`: tags present in the second
program only. -/
def extraList (semA semB : List SemanticInstruction) : List String :=
  allTypes.filterMap fun t =>
    let ca := countType semA t
    let cb := countType semB t
    if ca = 0 ∧ 0 < cb then
      some ("Extra " ++ typeName t ++ " (" ++ toString cb ++ " instructions)")
    else none

/-- The match note of `analyzeStructuralDifferences`: equal raw
instruction counts append "Same instruction count" to `result.Matches`. -/
def structuralMatchNote (tcpCount protoCount : Nat) : List String :=
  if tcpCount = protoCount then ["Same instruction count"] else []

/-- `result.StructuralDiffs` from `analyzeStructuralDifferences`:
the signed count delta, the fragment-handling flag and the
address-filtering flag. -/
def structuralDiffList (semA semB : List SemanticInstruction)
    (tcpCount protoCount : Nat) : List String :=
  (if tcpCount = protoCount then []
   else if tcpCount < protoCount then
     ["Prototype has " ++ toString (protoCount - tcpCount) ++ " more instructions than tcpdump"]
   else
     ["Prototype has " ++ toString (tcpCount - protoCount) ++ " fewer instructions than tcpdump"]) ++
  (if hasType semB .CheckFragment && !hasType semA .CheckFragment then
     ["Prototype includes fragment handling that tcpdump mock doesn't have"]
   else []) ++
  (if (hasType semB .CheckSourceIP || hasType semB .CheckDestIP) &&
      !(hasType semA .CheckSourceIP || hasType semA .CheckDestIP) then
     ["Prototype implements IP address filtering"]
   else [])

/-- `compare.calculateVerdict`, returning the `(Score, Verdict)` pair the
Go function writes into the result.  Thresholds are the exact rationals
behind the float literals 0.8 / 0.6 / 0.4 (see the header note on
float64). -/
def calculateVerdict (matchEntries differences missing extra : List String) : ℚ × String :=
  let totalMatches := matchEntries.length
  let totalDifferences := differences.length + missing.length + extra.length
  if totalMatches + totalDifferences = 0 then
    (0, "INCONCLUSIVE: No comparable instructions found")
  else
    let score : ℚ := (totalMatches : ℚ) / ((totalMatches : ℚ) + (totalDifferences : ℚ))
    let verdict :=
      if 0.8 ≤ score then "EXCELLENT MATCH: Prototype closely matches tcpdump behavior"
      else if 0.6 ≤ score then "GOOD MATCH: Prototype implements core functionality with some differences"
      else if 0.4 ≤ score then "PARTIAL MATCH: Prototype covers some functionality but has significant gaps"
      else "POOR MATCH: Prototype differs significantly from tcpdump approach"
    let verdict :=
      if missing.any (fun m => strContains m "Check IP Protocol") then
        "CRITICAL ISSUE: " ++ verdict ++ " (Missing IP validation)"
      else verdict
    (score, verdict)

/-- `compare.ComparisonResult`, restricted to the fields the comparison
computes (the two input-program pointers are carried through unread). -/
structure ComparisonResult where
  TcpdumpSemantic : List SemanticInstruction
  PrototypeSemantic : List SemanticInstruction
  Matches : List String
  Differences : List String
  MissingInPrototype : List String
  ExtraInPrototype : List String
  StructuralDiffs : List String
  Verdict : String
  Score : ℚ

/-- `compare.Compare` on the two instruction lists — the only part of the
input programs the engine reads (provenance metadata is stored, never
consumed).  `compareSemantics` fills the four tag lists and then
`analyzeStructuralDifferences` appends the count note / structural
entries; `calculateVerdict` computes score and verdict. -/
def Compare (tcpInstructions protoInstructions : List BPFInstruction) : ComparisonResult :=
  let semA := analyzeSemantics tcpInstructions
  let semB := analyzeSemantics protoInstructions
  let matchEntries := matchList semA semB ++
    structuralMatchNote tcpInstructions.length protoInstructions.length
  let differences := differenceList semA semB
  let missing := missingList semA semB
  let extra := extraList semA semB
  let sdiffs := structuralDiffList semA semB tcpInstructions.length protoInstructions.length
  let sv := calculateVerdict matchEntries differences missing extra
  ⟨semA, semB, matchEntries, differences, missing, extra, sdiffs, sv.2, sv.1⟩

/-- Modelled from the spec: the verdict thresholds of §4.4 step 7
("≥0.8 excellent, ≥0.6 good, ≥0.4 partial, else poor"), as a function of
the score alone, to be compared with the verdict `calculateVerdict`
actually produces. -/
def specThresholdVerdict (score : ℚ) : String :=
  if 0.8 ≤ score then "EXCELLENT MATCH: Prototype closely matches tcpdump behavior"
  else if 0.6 ≤ score then "GOOD MATCH: Prototype implements core functionality with some differences"
  else if 0.4 ≤ score then "PARTIAL MATCH: Prototype covers some functionality but has significant gaps"
  else "POOR MATCH: Prototype differs significantly from tcpdump approach"

/-- Decidable check that the instruction at position `p` carries branch
offsets resolving (as relative offsets, target = own position + offset)
to `acc` on the true branch and `rej` on the false branch. -/
def patchedB (insts : List BPFInstruction) (p acc rej : Nat) : Bool :=
  match insts[p]? with
  | some i => p + i.JT == acc && p + i.JF == rej
  | none => false

/-- The terminal-pair and final-backpatch property of one generated
program: the program is the recorded accept instruction (positive
immediate) immediately followed by the recorded reject instruction
(zero immediate) after a front that contains no return opcode, and every
check position recorded for the final pass — the ethertype check, the
protocol check when present, each address check when present, each port
check when present — carries offsets resolving to accept/reject. -/
def GeneratorBackpatchSpec (f : PacketFilter) : Prop :=
  let r := buildAntreaBPF f
  r.rejectIdx = r.acceptIdx + 1 ∧
  r.instructions.length = r.rejectIdx + 1 ∧
  r.instructions.drop r.acceptIdx = [⟨0x06, 0, 0, 0x00040000⟩, ⟨0x06, 0, 0, 0⟩] ∧
  (r.instructions.take r.acceptIdx).all (fun i => i.Code != 0x06) = true ∧
  patchedB r.instructions r.ipCheckIdx r.acceptIdx r.rejectIdx = true ∧
  (f.Protocol ≠ "" → patchedB r.instructions r.protocolCheckIdx.toNat r.acceptIdx r.rejectIdx = true) ∧
  (f.SrcIP ≠ "" → patchedB r.instructions r.srcIPCheckIdx.toNat r.acceptIdx r.rejectIdx = true) ∧
  (f.DstIP ≠ "" → patchedB r.instructions r.dstIPCheckIdx.toNat r.acceptIdx r.rejectIdx = true) ∧
  (r.portCheckIndices.all (fun p => patchedB r.instructions p r.acceptIdx r.rejectIdx)) = true

/-- What the fragment check actually receives when it is patched during
construction: its recorded position holds the bit-set-jump instruction
with true branch equal to the absolute position of the reject
instruction (= instruction count at patch time + 1) and false branch 0. -/
def FragPatchSpec (f : PacketFilter) : Prop :=
  let r := buildAntreaBPF f
  0 ≤ r.fragCheckIdx ∧
  r.instructions[r.fragCheckIdx.toNat]? = some ⟨0x45, r.rejectIdx, 0, 0x00001fff⟩

/-- Exactly one port check is emitted, its immediate is the one port that
was set, and the Semantic Classifier tags it as a destination-port
check. -/
def SinglePortCheckSpec (f : PacketFilter) : Prop :=
  let r := buildAntreaBPF f
  let port := if f.SrcPort = 0 then f.DstPort else f.SrcPort
  ∃ p, r.portCheckIndices = [p] ∧
    ∃ i, r.instructions[p]? = some i ∧ i.Code = 0x15 ∧ i.K = port ∧
      (analyzeInstruction i.Code i.JT i.JF i.K p).type = .CheckDestPort

/-- For each present address the generator emits the corresponding
32-bit address-word load immediately before an equality check whose
immediate is `ipToUint32` of the address string. -/
def AddressGateSpec (f : PacketFilter) : Prop :=
  let r := buildAntreaBPF f
  (f.SrcIP ≠ "" →
    0 ≤ r.srcIPCheckIdx ∧
    r.instructions[r.srcIPCheckIdx.toNat - 1]? = some ⟨0x20, 0, 0, 0x0000001a⟩ ∧
    ∃ i, r.instructions[r.srcIPCheckIdx.toNat]? = some i ∧ i.Code = 0x15 ∧
      i.K = ipToUint32 f.SrcIP) ∧
  (f.DstIP ≠ "" →
    0 ≤ r.dstIPCheckIdx ∧
    r.instructions[r.dstIPCheckIdx.toNat - 1]? = some ⟨0x20, 0, 0, 0x0000001e⟩ ∧
    ∃ i, r.instructions[r.dstIPCheckIdx.toNat]? = some i ∧ i.Code = 0x15 ∧
      i.K = ipToUint32 f.DstIP)

lemma updateJT_cons (i : BPFInstruction) (rest : List BPFInstruction) (idx jt jf : Nat) :
    updateJumpTargets (i :: rest) idx jt jf =
      if idx = 0 then ⟨i.Code, jt, jf, i.K⟩ :: rest
      else i :: updateJumpTargets rest (idx - 1) jt jf := by
  cases idx with
  | zero => simp [updateJumpTargets]
  | succ n => simp [updateJumpTargets]

lemma getElem?_cons_ite {α : Type} (a : α) (l : List α) (n : Nat) :
    (a :: l)[n]? = if n = 0 then some a else l[n - 1]? := by
  cases n <;> simp

lemma take_cons_ite {α : Type} (a : α) (l : List α) (n : Nat) :
    (a :: l).take n = if n = 0 then [] else a :: l.take (n - 1) := by
  cases n <;> simp

lemma drop_cons_ite {α : Type} (a : α) (l : List α) (n : Nat) :
    (a :: l).drop n = if n = 0 then a :: l else l.drop (n - 1) := by
  cases n <;> simp
lemma buildCore_fffff (pnum srcv dstv sport dport : Nat) :
    buildCore false pnum false srcv false dstv false sport false dport =
    ⟨[⟨40, 0, 0, 12⟩, ⟨21, 1, 2, 2048⟩, ⟨6, 0, 0, 262144⟩, ⟨6, 0, 0, 0⟩], 1, -1, -1, -1, -1, [], 2, 3⟩ := by
  simp [buildCore, AddInstruction, updateJT_cons]

lemma buildCore_fffft (pnum srcv dstv sport dport : Nat) :
    buildCore false pnum false srcv false dstv false sport true dport =
    ⟨[⟨40, 0, 0, 12⟩, ⟨21, 6, 7, 2048⟩, ⟨40, 0, 0, 20⟩, ⟨69, 8, 0, 8191⟩, ⟨177, 0, 0, 14⟩, ⟨72, 0, 0, 16⟩, ⟨21, 1, 2, dport⟩, ⟨6, 0, 0, 262144⟩, ⟨6, 0, 0, 0⟩], 1, -1, -1, -1, 3, [6], 7, 8⟩ := by
  simp [buildCore, AddInstruction, updateJT_cons]

lemma buildCore_ffftf (pnum srcv dstv sport dport : Nat) :
    buildCore false pnum false srcv false dstv true sport false dport =
    ⟨[⟨40, 0, 0, 12⟩, ⟨21, 6, 7, 2048⟩, ⟨40, 0, 0, 20⟩, ⟨69, 8, 0, 8191⟩, ⟨177, 0, 0, 14⟩, ⟨72, 0, 0, 14⟩, ⟨21, 1, 2, sport⟩, ⟨6, 0, 0, 262144⟩, ⟨6, 0, 0, 0⟩], 1, -1, -1, -1, 3, [6], 7, 8⟩ := by
  simp [buildCore, AddInstruction, updateJT_cons]

lemma buildCore_ffftt (pnum srcv dstv sport dport : Nat) :
    buildCore false pnum false srcv false dstv true sport true dport =
    ⟨[⟨40, 0, 0, 12⟩, ⟨21, 8, 9, 2048⟩, ⟨40, 0, 0, 20⟩, ⟨69, 10, 0, 8191⟩, ⟨177, 0, 0, 14⟩, ⟨72, 0, 0, 14⟩, ⟨21, 3, 4, sport⟩, ⟨72, 0, 0, 16⟩, ⟨21, 1, 2, dport⟩, ⟨6, 0, 0, 262144⟩, ⟨6, 0, 0, 0⟩], 1, -1, -1, -1, 3, [6, 8], 9, 10⟩ := by
  simp [buildCore, AddInstruction, updateJT_cons]

lemma buildCore_fftff (pnum srcv dstv sport dport : Nat) :
    buildCore false pnum false srcv true dstv false sport false dport =
    ⟨[⟨40, 0, 0, 12⟩, ⟨21, 3, 4, 2048⟩, ⟨32, 0, 0, 30⟩, ⟨21, 1, 2, dstv⟩, ⟨6, 0, 0, 262144⟩, ⟨6, 0, 0, 0⟩], 1, -1, -1, 3, -1, [], 4, 5⟩ := by
  simp [buildCore, AddInstruction, updateJT_cons]

lemma buildCore_fftft (pnum srcv dstv sport dport : Nat) :
    buildCore false pnum false srcv true dstv false sport true dport =
    ⟨[⟨40, 0, 0, 12⟩, ⟨21, 8, 9, 2048⟩, ⟨32, 0, 0, 30⟩, ⟨21, 6, 7, dstv⟩, ⟨40, 0, 0, 20⟩, ⟨69, 10, 0, 8191⟩, ⟨177, 0, 0, 14⟩, ⟨72, 0, 0, 16⟩, ⟨21, 1, 2, dport⟩, ⟨6, 0, 0, 262144⟩, ⟨6, 0, 0, 0⟩], 1, -1, -1, 3, 5, [8], 9, 10⟩ := by
  simp [buildCore, AddInstruction, updateJT_cons]

lemma buildCore_ffttf (pnum srcv dstv sport dport : Nat) :
    buildCore false pnum false srcv true dstv true sport false dport =
    ⟨[⟨40, 0, 0, 12⟩, ⟨21, 8, 9, 2048⟩, ⟨32, 0, 0, 30⟩, ⟨21, 6, 7, dstv⟩, ⟨40, 0, 0, 20⟩, ⟨69, 10, 0, 8191⟩, ⟨177, 0, 0, 14⟩, ⟨72, 0, 0, 14⟩, ⟨21, 1, 2, sport⟩, ⟨6, 0, 0, 262144⟩, ⟨6, 0, 0, 0⟩], 1, -1, -1, 3, 5, [8], 9, 10⟩ := by
  simp [buildCore, AddInstruction, updateJT_cons]

lemma buildCore_ffttt (pnum srcv dstv sport dport : Nat) :
    buildCore false pnum false srcv true dstv true sport true dport =
    ⟨[⟨40, 0, 0, 12⟩, ⟨21, 10, 11, 2048⟩, ⟨32, 0, 0, 30⟩, ⟨21, 8, 9, dstv⟩, ⟨40, 0, 0, 20⟩, ⟨69, 12, 0, 8191⟩, ⟨177, 0, 0, 14⟩, ⟨72, 0, 0, 14⟩, ⟨21, 3, 4, sport⟩, ⟨72, 0, 0, 16⟩, ⟨21, 1, 2, dport⟩, ⟨6, 0, 0, 262144⟩, ⟨6, 0, 0, 0⟩], 1, -1, -1, 3, 5, [8, 10], 11, 12⟩ := by
  simp [buildCore, AddInstruction, updateJT_cons]

lemma buildCore_ftfff (pnum srcv dstv sport dport : Nat) :
    buildCore false pnum true srcv false dstv false sport false dport =
    ⟨[⟨40, 0, 0, 12⟩, ⟨21, 3, 4, 2048⟩, ⟨32, 0, 0, 26⟩, ⟨21, 1, 2, srcv⟩, ⟨6, 0, 0, 262144⟩, ⟨6, 0, 0, 0⟩], 1, -1, 3, -1, -1, [], 4, 5⟩ := by
  simp [buildCore, AddInstruction, updateJT_cons]

lemma buildCore_ftfft (pnum srcv dstv sport dport : Nat) :
    buildCore false pnum true srcv false dstv false sport true dport =
    ⟨[⟨40, 0, 0, 12⟩, ⟨21, 8, 9, 2048⟩, ⟨32, 0, 0, 26⟩, ⟨21, 6, 7, srcv⟩, ⟨40, 0, 0, 20⟩, ⟨69, 10, 0, 8191⟩, ⟨177, 0, 0, 14⟩, ⟨72, 0, 0, 16⟩, ⟨21, 1, 2, dport⟩, ⟨6, 0, 0, 262144⟩, ⟨6, 0, 0, 0⟩], 1, -1, 3, -1, 5, [8], 9, 10⟩ := by
  simp [buildCore, AddInstruction, updateJT_cons]

lemma buildCore_ftftf (pnum srcv dstv sport dport : Nat) :
    buildCore false pnum true srcv false dstv true sport false dport =
    ⟨[⟨40, 0, 0, 12⟩, ⟨21, 8, 9, 2048⟩, ⟨32, 0, 0, 26⟩, ⟨21, 6, 7, srcv⟩, ⟨40, 0, 0, 20⟩, ⟨69, 10, 0, 8191⟩, ⟨177, 0, 0, 14⟩, ⟨72, 0, 0, 14⟩, ⟨21, 1, 2, sport⟩, ⟨6, 0, 0, 262144⟩, ⟨6, 0, 0, 0⟩], 1, -1, 3, -1, 5, [8], 9, 10⟩ := by
  simp [buildCore, AddInstruction, updateJT_cons]

lemma buildCore_ftftt (pnum srcv dstv sport dport : Nat) :
    buildCore false pnum true srcv false dstv true sport true dport =
    ⟨[⟨40, 0, 0, 12⟩, ⟨21, 10, 11, 2048⟩, ⟨32, 0, 0, 26⟩, ⟨21, 8, 9, srcv⟩, ⟨40, 0, 0, 20⟩, ⟨69, 12, 0, 8191⟩, ⟨177, 0, 0, 14⟩, ⟨72, 0, 0, 14⟩, ⟨21, 3, 4, sport⟩, ⟨72, 0, 0, 16⟩, ⟨21, 1, 2, dport⟩, ⟨6, 0, 0, 262144⟩, ⟨6, 0, 0, 0⟩], 1, -1, 3, -1, 5, [8, 10], 11, 12⟩ := by
  simp [buildCore, AddInstruction, updateJT_cons]

lemma buildCore_fttff (pnum srcv dstv sport dport : Nat) :
    buildCore false pnum true srcv true dstv false sport false dport =
    ⟨[⟨40, 0, 0, 12⟩, ⟨21, 5, 6, 2048⟩, ⟨32, 0, 0, 26⟩, ⟨21, 3, 4, srcv⟩, ⟨32, 0, 0, 30⟩, ⟨21, 1, 2, dstv⟩, ⟨6, 0, 0, 262144⟩, ⟨6, 0, 0, 0⟩], 1, -1, 3, 5, -1, [], 6, 7⟩ := by
  simp [buildCore, AddInstruction, updateJT_cons]

lemma buildCore_fttft (pnum srcv dstv sport dport : Nat) :
    buildCore false pnum true srcv true dstv false sport true dport =
    ⟨[⟨40, 0, 0, 12⟩, ⟨21, 10, 11, 2048⟩, ⟨32, 0, 0, 26⟩, ⟨21, 8, 9, srcv⟩, ⟨32, 0, 0, 30⟩, ⟨21, 6, 7, dstv⟩, ⟨40, 0, 0, 20⟩, ⟨69, 12, 0, 8191⟩, ⟨177, 0, 0, 14⟩, ⟨72, 0, 0, 16⟩, ⟨21, 1, 2, dport⟩, ⟨6, 0, 0, 262144⟩, ⟨6, 0, 0, 0⟩], 1, -1, 3, 5, 7, [10], 11, 12⟩ := by
  simp [buildCore, AddInstruction, updateJT_cons]

lemma buildCore_ftttf (pnum srcv dstv sport dport : Nat) :
    buildCore false pnum true srcv true dstv true sport false dport =
    ⟨[⟨40, 0, 0, 12⟩, ⟨21, 10, 11, 2048⟩, ⟨32, 0, 0, 26⟩, ⟨21, 8, 9, srcv⟩, ⟨32, 0, 0, 30⟩, ⟨21, 6, 7, dstv⟩, ⟨40, 0, 0, 20⟩, ⟨69, 12, 0, 8191⟩, ⟨177, 0, 0, 14⟩, ⟨72, 0, 0, 14⟩, ⟨21, 1, 2, sport⟩, ⟨6, 0, 0, 262144⟩, ⟨6, 0, 0, 0⟩], 1, -1, 3, 5, 7, [10], 11, 12⟩ := by
  simp [buildCore, AddInstruction, updateJT_cons]

lemma buildCore_ftttt (pnum srcv dstv sport dport : Nat) :
    buildCore false pnum true srcv true dstv true sport true dport =
    ⟨[⟨40, 0, 0, 12⟩, ⟨21, 12, 13, 2048⟩, ⟨32, 0, 0, 26⟩, ⟨21, 10, 11, srcv⟩, ⟨32, 0, 0, 30⟩, ⟨21, 8, 9, dstv⟩, ⟨40, 0, 0, 20⟩, ⟨69, 14, 0, 8191⟩, ⟨177, 0, 0, 14⟩, ⟨72, 0, 0, 14⟩, ⟨21, 3, 4, sport⟩, ⟨72, 0, 0, 16⟩, ⟨21, 1, 2, dport⟩, ⟨6, 0, 0, 262144⟩, ⟨6, 0, 0, 0⟩], 1, -1, 3, 5, 7, [10, 12], 13, 14⟩ := by
  simp [buildCore, AddInstruction, updateJT_cons]

lemma buildCore_tffff (pnum srcv dstv sport dport : Nat) :
    buildCore true pnum false srcv false dstv false sport false dport =
    ⟨[⟨40, 0, 0, 12⟩, ⟨21, 3, 4, 2048⟩, ⟨48, 0, 0, 23⟩, ⟨21, 1, 2, pnum⟩, ⟨6, 0, 0, 262144⟩, ⟨6, 0, 0, 0⟩], 1, 3, -1, -1, -1, [], 4, 5⟩ := by
  simp [buildCore, AddInstruction, updateJT_cons]

lemma buildCore_tffft (pnum srcv dstv sport dport : Nat) :
    buildCore true pnum false srcv false dstv false sport true dport =
    ⟨[⟨40, 0, 0, 12⟩, ⟨21, 8, 9, 2048⟩, ⟨48, 0, 0, 23⟩, ⟨21, 6, 7, pnum⟩, ⟨40, 0, 0, 20⟩, ⟨69, 10, 0, 8191⟩, ⟨177, 0, 0, 14⟩, ⟨72, 0, 0, 16⟩, ⟨21, 1, 2, dport⟩, ⟨6, 0, 0, 262144⟩, ⟨6, 0, 0, 0⟩], 1, 3, -1, -1, 5, [8], 9, 10⟩ := by
  simp [buildCore, AddInstruction, updateJT_cons]

lemma buildCore_tfftf (pnum srcv dstv sport dport : Nat) :
    buildCore true pnum false srcv false dstv true sport false dport =
    ⟨[⟨40, 0, 0, 12⟩, ⟨21, 8, 9, 2048⟩, ⟨48, 0, 0, 23⟩, ⟨21, 6, 7, pnum⟩, ⟨40, 0, 0, 20⟩, ⟨69, 10, 0, 8191⟩, ⟨177, 0, 0, 14⟩, ⟨72, 0, 0, 14⟩, ⟨21, 1, 2, sport⟩, ⟨6, 0, 0, 262144⟩, ⟨6, 0, 0, 0⟩], 1, 3, -1, -1, 5, [8], 9, 10⟩ := by
  simp [buildCore, AddInstruction, updateJT_cons]

lemma buildCore_tfftt (pnum srcv dstv sport dport : Nat) :
    buildCore true pnum false srcv false dstv true sport true dport =
    ⟨[⟨40, 0, 0, 12⟩, ⟨21, 10, 11, 2048⟩, ⟨48, 0, 0, 23⟩, ⟨21, 8, 9, pnum⟩, ⟨40, 0, 0, 20⟩, ⟨69, 12, 0, 8191⟩, ⟨177, 0, 0, 14⟩, ⟨72, 0, 0, 14⟩, ⟨21, 3, 4, sport⟩, ⟨72, 0, 0, 16⟩, ⟨21, 1, 2, dport⟩, ⟨6, 0, 0, 262144⟩, ⟨6, 0, 0, 0⟩], 1, 3, -1, -1, 5, [8, 10], 11, 12⟩ := by
  simp [buildCore, AddInstruction, updateJT_cons]

lemma buildCore_tftff (pnum srcv dstv sport dport : Nat) :
    buildCore true pnum false srcv true dstv false sport false dport =
    ⟨[⟨40, 0, 0, 12⟩, ⟨21, 5, 6, 2048⟩, ⟨48, 0, 0, 23⟩, ⟨21, 3, 4, pnum⟩, ⟨32, 0, 0, 30⟩, ⟨21, 1, 2, dstv⟩, ⟨6, 0, 0, 262144⟩, ⟨6, 0, 0, 0⟩], 1, 3, -1, 5, -1, [], 6, 7⟩ := by
  simp [buildCore, AddInstruction, updateJT_cons]

lemma buildCore_tftft (pnum srcv dstv sport dport : Nat) :
    buildCore true pnum false srcv true dstv false sport true dport =
    ⟨[⟨40, 0, 0, 12⟩, ⟨21, 10, 11, 2048⟩, ⟨48, 0, 0, 23⟩, ⟨21, 8, 9, pnum⟩, ⟨32, 0, 0, 30⟩, ⟨21, 6, 7, dstv⟩, ⟨40, 0, 0, 20⟩, ⟨69, 12, 0, 8191⟩, ⟨177, 0, 0, 14⟩, ⟨72, 0, 0, 16⟩, ⟨21, 1, 2, dport⟩, ⟨6, 0, 0, 262144⟩, ⟨6, 0, 0, 0⟩], 1, 3, -1, 5, 7, [10], 11, 12⟩ := by
  simp [buildCore, AddInstruction, updateJT_cons]

lemma buildCore_tfttf (pnum srcv dstv sport dport : Nat) :
    buildCore true pnum false srcv true dstv true sport false dport =
    ⟨[⟨40, 0, 0, 12⟩, ⟨21, 10, 11, 2048⟩, ⟨48, 0, 0, 23⟩, ⟨21, 8, 9, pnum⟩, ⟨32, 0, 0, 30⟩, ⟨21, 6, 7, dstv⟩, ⟨40, 0, 0, 20⟩, ⟨69, 12, 0, 8191⟩, ⟨177, 0, 0, 14⟩, ⟨72, 0, 0, 14⟩, ⟨21, 1, 2, sport⟩, ⟨6, 0, 0, 262144⟩, ⟨6, 0, 0, 0⟩], 1, 3, -1, 5, 7, [10], 11, 12⟩ := by
  simp [buildCore, AddInstruction, updateJT_cons]

lemma buildCore_tfttt (pnum srcv dstv sport dport : Nat) :
    buildCore true pnum false srcv true dstv true sport true dport =
    ⟨[⟨40, 0, 0, 12⟩, ⟨21, 12, 13, 2048⟩, ⟨48, 0, 0, 23⟩, ⟨21, 10, 11, pnum⟩, ⟨32, 0, 0, 30⟩, ⟨21, 8, 9, dstv⟩, ⟨40, 0, 0, 20⟩, ⟨69, 14, 0, 8191⟩, ⟨177, 0, 0, 14⟩, ⟨72, 0, 0, 14⟩, ⟨21, 3, 4, sport⟩, ⟨72, 0, 0, 16⟩, ⟨21, 1, 2, dport⟩, ⟨6, 0, 0, 262144⟩, ⟨6, 0, 0, 0⟩], 1, 3, -1, 5, 7, [10, 12], 13, 14⟩ := by
  simp [buildCore, AddInstruction, updateJT_cons]

lemma buildCore_ttfff (pnum srcv dstv sport dport : Nat) :
    buildCore true pnum true srcv false dstv false sport false dport =
    ⟨[⟨40, 0, 0, 12⟩, ⟨21, 5, 6, 2048⟩, ⟨48, 0, 0, 23⟩, ⟨21, 3, 4, pnum⟩, ⟨32, 0, 0, 26⟩, ⟨21, 1, 2, srcv⟩, ⟨6, 0, 0, 262144⟩, ⟨6, 0, 0, 0⟩], 1, 3, 5, -1, -1, [], 6, 7⟩ := by
  simp [buildCore, AddInstruction, updateJT_cons]

lemma buildCore_ttfft (pnum srcv dstv sport dport : Nat) :
    buildCore true pnum true srcv false dstv false sport true dport =
    ⟨[⟨40, 0, 0, 12⟩, ⟨21, 10, 11, 2048⟩, ⟨48, 0, 0, 23⟩, ⟨21, 8, 9, pnum⟩, ⟨32, 0, 0, 26⟩, ⟨21, 6, 7, srcv⟩, ⟨40, 0, 0, 20⟩, ⟨69, 12, 0, 8191⟩, ⟨177, 0, 0, 14⟩, ⟨72, 0, 0, 16⟩, ⟨21, 1, 2, dport⟩, ⟨6, 0, 0, 262144⟩, ⟨6, 0, 0, 0⟩], 1, 3, 5, -1, 7, [10], 11, 12⟩ := by
  simp [buildCore, AddInstruction, updateJT_cons]

lemma buildCore_ttftf (pnum srcv dstv sport dport : Nat) :
    buildCore true pnum true srcv false dstv true sport false dport =
    ⟨[⟨40, 0, 0, 12⟩, ⟨21, 10, 11, 2048⟩, ⟨48, 0, 0, 23⟩, ⟨21, 8, 9, pnum⟩, ⟨32, 0, 0, 26⟩, ⟨21, 6, 7, srcv⟩, ⟨40, 0, 0, 20⟩, ⟨69, 12, 0, 8191⟩, ⟨177, 0, 0, 14⟩, ⟨72, 0, 0, 14⟩, ⟨21, 1, 2, sport⟩, ⟨6, 0, 0, 262144⟩, ⟨6, 0, 0, 0⟩], 1, 3, 5, -1, 7, [10], 11, 12⟩ := by
  simp [buildCore, AddInstruction, updateJT_cons]

lemma buildCore_ttftt (pnum srcv dstv sport dport : Nat) :
    buildCore true pnum true srcv false dstv true sport true dport =
    ⟨[⟨40, 0, 0, 12⟩, ⟨21, 12, 13, 2048⟩, ⟨48, 0, 0, 23⟩, ⟨21, 10, 11, pnum⟩, ⟨32, 0, 0, 26⟩, ⟨21, 8, 9, srcv⟩, ⟨40, 0, 0, 20⟩, ⟨69, 14, 0, 8191⟩, ⟨177, 0, 0, 14⟩, ⟨72, 0, 0, 14⟩, ⟨21, 3, 4, sport⟩, ⟨72, 0, 0, 16⟩, ⟨21, 1, 2, dport⟩, ⟨6, 0, 0, 262144⟩, ⟨6, 0, 0, 0⟩], 1, 3, 5, -1, 7, [10, 12], 13, 14⟩ := by
  simp [buildCore, AddInstruction, updateJT_cons]

lemma buildCore_tttff (pnum srcv dstv sport dport : Nat) :
    buildCore true pnum true srcv true dstv false sport false dport =
    ⟨[⟨40, 0, 0, 12⟩, ⟨21, 7, 8, 2048⟩, ⟨48, 0, 0, 23⟩, ⟨21, 5, 6, pnum⟩, ⟨32, 0, 0, 26⟩, ⟨21, 3, 4, srcv⟩, ⟨32, 0, 0, 30⟩, ⟨21, 1, 2, dstv⟩, ⟨6, 0, 0, 262144⟩, ⟨6, 0, 0, 0⟩], 1, 3, 5, 7, -1, [], 8, 9⟩ := by
  simp [buildCore, AddInstruction, updateJT_cons]

lemma buildCore_tttft (pnum srcv dstv sport dport : Nat) :
    buildCore true pnum true srcv true dstv false sport true dport =
    ⟨[⟨40, 0, 0, 12⟩, ⟨21, 12, 13, 2048⟩, ⟨48, 0, 0, 23⟩, ⟨21, 10, 11, pnum⟩, ⟨32, 0, 0, 26⟩, ⟨21, 8, 9, srcv⟩, ⟨32, 0, 0, 30⟩, ⟨21, 6, 7, dstv⟩, ⟨40, 0, 0, 20⟩, ⟨69, 14, 0, 8191⟩, ⟨177, 0, 0, 14⟩, ⟨72, 0, 0, 16⟩, ⟨21, 1, 2, dport⟩, ⟨6, 0, 0, 262144⟩, ⟨6, 0, 0, 0⟩], 1, 3, 5, 7, 9, [12], 13, 14⟩ := by
  simp [buildCore, AddInstruction, updateJT_cons]

lemma buildCore_ttttf (pnum srcv dstv sport dport : Nat) :
    buildCore true pnum true srcv true dstv true sport false dport =
    ⟨[⟨40, 0, 0, 12⟩, ⟨21, 12, 13, 2048⟩, ⟨48, 0, 0, 23⟩, ⟨21, 10, 11, pnum⟩, ⟨32, 0, 0, 26⟩, ⟨21, 8, 9, srcv⟩, ⟨32, 0, 0, 30⟩, ⟨21, 6, 7, dstv⟩, ⟨40, 0, 0, 20⟩, ⟨69, 14, 0, 8191⟩, ⟨177, 0, 0, 14⟩, ⟨72, 0, 0, 14⟩, ⟨21, 1, 2, sport⟩, ⟨6, 0, 0, 262144⟩, ⟨6, 0, 0, 0⟩], 1, 3, 5, 7, 9, [12], 13, 14⟩ := by
  simp [buildCore, AddInstruction, updateJT_cons]

lemma buildCore_ttttt (pnum srcv dstv sport dport : Nat) :
    buildCore true pnum true srcv true dstv true sport true dport =
    ⟨[⟨40, 0, 0, 12⟩, ⟨21, 14, 15, 2048⟩, ⟨48, 0, 0, 23⟩, ⟨21, 12, 13, pnum⟩, ⟨32, 0, 0, 26⟩, ⟨21, 10, 11, srcv⟩, ⟨32, 0, 0, 30⟩, ⟨21, 8, 9, dstv⟩, ⟨40, 0, 0, 20⟩, ⟨69, 16, 0, 8191⟩, ⟨177, 0, 0, 14⟩, ⟨72, 0, 0, 14⟩, ⟨21, 3, 4, sport⟩, ⟨72, 0, 0, 16⟩, ⟨21, 1, 2, dport⟩, ⟨6, 0, 0, 262144⟩, ⟨6, 0, 0, 0⟩], 1, 3, 5, 7, 9, [12, 14], 15, 16⟩ := by
  simp [buildCore, AddInstruction, updateJT_cons]


set_option maxHeartbeats 1600000 in
/-- C1: for every valid filter, the generated program ends with exactly the
accept return (opcode 0x06, positive immediate) immediately followed by the
reject return (opcode 0x06, immediate 0), no other return opcode occurs,
and every check position recorded for the final backpatching pass (the
ethertype check; the protocol check when a protocol is present; each
address check when present; each port check when present — not the
fragment check) carries a true-branch offset of acceptPosition − p and a
false-branch offset of rejectPosition − p, so its true branch resolves to
the accept instruction. -/
theorem claim_c1_terminal_pair_and_backpatch (f : PacketFilter) (hv : ValidFilter f) :
    GeneratorBackpatchSpec f := by
  by_cases h1 : f.Protocol = "" <;> by_cases h2 : f.SrcIP = "" <;>
    by_cases h3 : f.DstIP = "" <;> by_cases h4 : f.SrcPort = 0 <;> by_cases h5 : f.DstPort = 0 <;>
    · simp only [GeneratorBackpatchSpec, buildAntreaBPF, ne_eq, h1, h2, h3, h4, h5,
        decide_not, decide_True, decide_False, eq_self_iff_true, Bool.not_true, Bool.not_false]
      simp [patchedB, getElem?_cons_ite, take_cons_ite, drop_cons_ite,
        buildCore_fffff, buildCore_fffft, buildCore_ffftf, buildCore_ffftt, buildCore_fftff, buildCore_fftft, buildCore_ffttf, buildCore_ffttt, buildCore_ftfff, buildCore_ftfft, buildCore_ftftf, buildCore_ftftt, buildCore_fttff, buildCore_fttft, buildCore_ftttf, buildCore_ftttt, buildCore_tffff, buildCore_tffft, buildCore_tfftf, buildCore_tfftt, buildCore_tftff, buildCore_tftft, buildCore_tfttf, buildCore_tfttt, buildCore_ttfff, buildCore_ttfft, buildCore_ttftf, buildCore_ttftt, buildCore_tttff, buildCore_tttft, buildCore_ttttf, buildCore_ttttt]

/-- Witness for C1 at the filter specifying only protocol tcp. -/
theorem claim_c1_witness :
    ValidFilter ⟨"tcp", "", "", 0, 0⟩ ∧ GeneratorBackpatchSpec ⟨"tcp", "", "", 0, 0⟩ :=
  ⟨by decide, claim_c1_terminal_pair_and_backpatch _ (by decide)⟩

lemma analyzeInstruction_generic_port (jt jf k idx : Nat) (h1 : 1 ≤ k) (h2 : k ≤ 65535)
    (h3 : k ≠ 0x800) (h4 : k ≠ 6) (h5 : k ≠ 17) (h6 : k ≠ 1) :
    (analyzeInstruction 0x15 jt jf k idx).type = .CheckDestPort := by
  simp [analyzeInstruction, h3, h4, h5, h6, h1, h2]

/-- C2 counterexample: for the filter `{protocol: tcp, destPort: 80}` the
fragment check sits at position 5 and is patched with true-branch value 10
(the absolute position of the reject instruction); the last emitted port
check sits at position 8, so the position immediately following it is 9 —
but 5 + 10 = 15 ≠ 9, so the patched value, read as a relative forward
offset per the data model's offset invariant, does not resolve to the
position following the last port check.  This refutes C2 as stated. -/
theorem claim_c2_counterexample :
    (buildAntreaBPF ⟨"tcp", "", "", 0, 80⟩).fragCheckIdx = 5 ∧
    (buildAntreaBPF ⟨"tcp", "", "", 0, 80⟩).portCheckIndices = [8] ∧
    (buildAntreaBPF ⟨"tcp", "", "", 0, 80⟩).acceptIdx = 9 ∧
    (buildAntreaBPF ⟨"tcp", "", "", 0, 80⟩).instructions[5]? = some ⟨0x45, 10, 0, 0x00001fff⟩ ∧
    5 + 10 ≠ 8 + 1 := by
  simp [buildAntreaBPF, buildCore_tffft, getElem?_cons_ite, protocolNum]

set_option maxHeartbeats 1600000 in
/-- C2 amended: for every valid filter with at least one port set, the
fragment check's recorded position holds the bit-set-jump instruction
(opcode 0x45, immediate 0x1fff) whose true-branch field equals the
absolute position of the reject instruction (instruction count at patch
time + 1), and whose false-branch field is 0 — an absolute target, not a
relative offset per the data model's invariant. -/
theorem claim_c2_fragment_absolute_target (f : PacketFilter) (hv : ValidFilter f)
    (hports : f.SrcPort ≠ 0 ∨ f.DstPort ≠ 0) : FragPatchSpec f := by
  by_cases h1 : f.Protocol = "" <;> by_cases h2 : f.SrcIP = "" <;>
    by_cases h3 : f.DstIP = "" <;> by_cases h4 : f.SrcPort = 0 <;> by_cases h5 : f.DstPort = 0 <;>
    first
    | (exfalso; revert hports; simp [h4, h5]; done)
    | · simp only [FragPatchSpec, buildAntreaBPF, ne_eq, h1, h2, h3, h4, h5,
          decide_not, decide_True, decide_False, eq_self_iff_true, Bool.not_true, Bool.not_false]
        simp [getElem?_cons_ite, buildCore_fffff, buildCore_fffft, buildCore_ffftf, buildCore_ffftt, buildCore_fftff, buildCore_fftft, buildCore_ffttf, buildCore_ffttt, buildCore_ftfff, buildCore_ftfft, buildCore_ftftf, buildCore_ftftt, buildCore_fttff, buildCore_fttft, buildCore_ftttf, buildCore_ftttt, buildCore_tffff, buildCore_tffft, buildCore_tfftf, buildCore_tfftt, buildCore_tftff, buildCore_tftft, buildCore_tfttf, buildCore_tfttt, buildCore_ttfff, buildCore_ttfft, buildCore_ttftf, buildCore_ttftt, buildCore_tttff, buildCore_tttft, buildCore_ttttf, buildCore_ttttt]

/-- Witness for the amended C2 at the filter `{protocol: tcp, destPort: 80}`. -/
theorem claim_c2_witness :
    ValidFilter ⟨"tcp", "", "", 0, 80⟩ ∧ ((⟨"tcp", "", "", 0, 80⟩ : PacketFilter).SrcPort ≠ 0 ∨
      (⟨"tcp", "", "", 0, 80⟩ : PacketFilter).DstPort ≠ 0) ∧ FragPatchSpec ⟨"tcp", "", "", 0, 80⟩ :=
  ⟨by decide, by decide, claim_c2_fragment_absolute_target _ (by decide) (by decide)⟩

/-- C3 counterexample: for the filter with only sourcePort = 8080 set,
exactly one port-check instruction is emitted (position 6, immediate
8080), but the Semantic Classifier tags it as the destination-port check,
not the source-port check the claim requires for a sourcePort filter. -/
theorem claim_c3_counterexample :
    (buildAntreaBPF ⟨"", "", "", 8080, 0⟩).portCheckIndices = [6] ∧
    (buildAntreaBPF ⟨"", "", "", 8080, 0⟩).instructions[6]? = some ⟨0x15, 1, 2, 8080⟩ ∧
    (analyzeInstruction 0x15 1 2 8080 6).type = .CheckDestPort ∧
    InstructionType.CheckDestPort ≠ InstructionType.CheckSourcePort := by
  refine ⟨?_, ?_, by decide, by decide⟩ <;>
    simp [buildAntreaBPF, buildCore_ffftf, getElem?_cons_ite]

set_option maxHeartbeats 1600000 in
/-- C3 amended: for every valid filter with exactly one of the two ports
set (and the port value not among the specially classified immediates 1,
6, 17, 2048), exactly one port-check instruction is emitted — an
equality jump whose immediate is the set port — and the Semantic
Classifier tags it as the destination-port check regardless of which
port was set (the classifier cannot produce the source-port tag). -/
theorem claim_c3_single_port_check_tag (f : PacketFilter) (hv : ValidFilter f)
    (hone : (f.SrcPort ≠ 0 ∧ f.DstPort = 0) ∨ (f.SrcPort = 0 ∧ f.DstPort ≠ 0))
    (hval : (if f.SrcPort = 0 then f.DstPort else f.SrcPort) ∉ ([1, 6, 17, 2048] : List Nat)) :
    SinglePortCheckSpec f := by
  obtain ⟨-, hvs, hvd, -, -⟩ := hv
  have hms : f.SrcPort % 4294967296 = f.SrcPort := Nat.mod_eq_of_lt (by omega)
  have hmd : f.DstPort % 4294967296 = f.DstPort := Nat.mod_eq_of_lt (by omega)
  by_cases h1 : f.Protocol = "" <;> by_cases h2 : f.SrcIP = "" <;>
    by_cases h3 : f.DstIP = "" <;> by_cases h4 : f.SrcPort = 0 <;> by_cases h5 : f.DstPort = 0 <;>
    first
    | (exfalso; revert hone; simp [h4, h5]; done)
    | · simp only [h4, h5, ite_true, ite_false, List.mem_cons, List.not_mem_nil, or_false] at hval
        push_neg at hval
        simp only [SinglePortCheckSpec, buildAntreaBPF, ne_eq, h1, h2, h3, h4, h5,
          decide_not, decide_True, decide_False, eq_self_iff_true, Bool.not_true, Bool.not_false]
        simp [getElem?_cons_ite, hms, hmd, h4, h5, buildCore_fffff, buildCore_fffft, buildCore_ffftf, buildCore_ffftt, buildCore_fftff, buildCore_fftft, buildCore_ffttf, buildCore_ffttt, buildCore_ftfff, buildCore_ftfft, buildCore_ftftf, buildCore_ftftt, buildCore_fttff, buildCore_fttft, buildCore_ftttf, buildCore_ftttt, buildCore_tffff, buildCore_tffft, buildCore_tfftf, buildCore_tfftt, buildCore_tftff, buildCore_tftft, buildCore_tfttf, buildCore_tfttt, buildCore_ttfff, buildCore_ttfft, buildCore_ttftf, buildCore_ttftt, buildCore_tttff, buildCore_tttft, buildCore_ttttf, buildCore_ttttt]
        exact analyzeInstruction_generic_port _ _ _ _ (by omega) (by omega)
          (by omega) (by omega) (by omega) (by omega)

/-- Witness for the amended C3 at the filter with only sourcePort 8080. -/
theorem claim_c3_witness :
    ValidFilter ⟨"", "", "", 8080, 0⟩ ∧
    (((⟨"", "", "", 8080, 0⟩ : PacketFilter).SrcPort ≠ 0 ∧ (⟨"", "", "", 8080, 0⟩ : PacketFilter).DstPort = 0) ∨
     ((⟨"", "", "", 8080, 0⟩ : PacketFilter).SrcPort = 0 ∧ (⟨"", "", "", 8080, 0⟩ : PacketFilter).DstPort ≠ 0)) ∧
    SinglePortCheckSpec ⟨"", "", "", 8080, 0⟩ :=
  ⟨by decide, by decide, claim_c3_single_port_check_tag _ (by decide) (by decide) (by decide)⟩

/-- C4 counterexample: for the syntactically valid address "1.2.3.4"
(integer form 0x01020304), the emitted source-address check carries the
mock immediate 0xc0a80001 (192.168.0.1), not the address's integer form,
refuting C4's "for every syntactically valid IPv4 address string". -/
theorem claim_c4_counterexample :
    (buildAntreaBPF ⟨"", "1.2.3.4", "", 0, 0⟩).srcIPCheckIdx = 3 ∧
    (buildAntreaBPF ⟨"", "1.2.3.4", "", 0, 0⟩).instructions[3]? = some ⟨0x15, 1, 2, 0xc0a80001⟩ ∧
    ipv4ToNat "1.2.3.4" = some 0x01020304 ∧
    (0xc0a80001 : Nat) ≠ 0x01020304 := by
  refine ⟨?_, ?_, by decide, by decide⟩ <;>
    simp [buildAntreaBPF, buildCore_ftfff, getElem?_cons_ite, ipToUint32]

set_option maxHeartbeats 1600000 in
/-- C4 amended: for every valid filter, each present address yields a
load of the corresponding 32-bit address word (immediate 26 for source,
30 for destination) immediately followed by an equality check whose
immediate is `ipToUint32` of the address string — which equals the
address's big-endian integer form exactly for the three hardcoded
addresses 192.168.1.1, 10.0.0.1 and 127.0.0.1, and is the fixed mock
value 0xc0a80001 for every other string. -/
theorem claim_c4_address_gates_mock_value (f : PacketFilter) (hv : ValidFilter f) :
    AddressGateSpec f ∧
    ipv4ToNat "192.168.1.1" = some (ipToUint32 "192.168.1.1") ∧
    ipv4ToNat "10.0.0.1" = some (ipToUint32 "10.0.0.1") ∧
    ipv4ToNat "127.0.0.1" = some (ipToUint32 "127.0.0.1") := by
  refine ⟨?_, by decide, by decide, by decide⟩
  by_cases h1 : f.Protocol = "" <;> by_cases h2 : f.SrcIP = "" <;>
    by_cases h3 : f.DstIP = "" <;> by_cases h4 : f.SrcPort = 0 <;> by_cases h5 : f.DstPort = 0 <;>
    · simp only [AddressGateSpec, buildAntreaBPF, ne_eq, h1, h2, h3, h4, h5,
        decide_not, decide_True, decide_False, eq_self_iff_true, Bool.not_true, Bool.not_false]
      simp [getElem?_cons_ite, buildCore_fffff, buildCore_fffft, buildCore_ffftf, buildCore_ffftt, buildCore_fftff, buildCore_fftft, buildCore_ffttf, buildCore_ffttt, buildCore_ftfff, buildCore_ftfft, buildCore_ftftf, buildCore_ftftt, buildCore_fttff, buildCore_fttft, buildCore_ftttf, buildCore_ftttt, buildCore_tffff, buildCore_tffft, buildCore_tfftf, buildCore_tfftt, buildCore_tftff, buildCore_tftft, buildCore_tfttf, buildCore_tfttt, buildCore_ttfff, buildCore_ttfft, buildCore_ttftf, buildCore_ttftt, buildCore_tttff, buildCore_tttft, buildCore_ttttf, buildCore_ttttt]

/-- Witness for the amended C4 at a filter with both addresses present. -/
theorem claim_c4_witness :
    ValidFilter ⟨"", "192.168.1.1", "10.0.0.1", 0, 0⟩ ∧
    AddressGateSpec ⟨"", "192.168.1.1", "10.0.0.1", 0, 0⟩ :=
  ⟨by decide, (claim_c4_address_gates_mock_value _ (by decide)).1⟩

lemma filterMap_ne_nil {α β : Type} (f : α → Option β) (l : List α) (a : α)
    (ha : a ∈ l) (b : β) (hb : f a = some b) : l.filterMap f ≠ [] := by
  intro h
  have hmem : b ∈ l.filterMap f := List.mem_filterMap.2 ⟨a, ha, hb⟩
  rw [h] at hmem
  exact absurd hmem (List.not_mem_nil b)

lemma mem_allTypes (t : InstructionType) : t ∈ allTypes := by
  cases t <;> simp [allTypes]

lemma differenceList_self (sem : List SemanticInstruction) : differenceList sem sem = [] := by
  rw [differenceList, List.filterMap_eq_nil_iff]
  intro t _
  simp
  try omega

lemma missingList_self (sem : List SemanticInstruction) : missingList sem sem = [] := by
  rw [missingList, List.filterMap_eq_nil_iff]
  intro t _
  simp
  try omega

lemma extraList_self (sem : List SemanticInstruction) : extraList sem sem = [] := by
  rw [extraList, List.filterMap_eq_nil_iff]
  intro t _
  simp
  try omega

lemma structuralDiffList_self (sem : List SemanticInstruction) (n : Nat) :
    structuralDiffList sem sem n n = [] := by
  simp [structuralDiffList]
  intro h hx
  rcases h with h | h
  · rw [hx] at h
    exact Bool.noConfusion h
  · exact h

lemma calculateVerdict_all_matches (ms : List String) (h : ms ≠ []) :
    calculateVerdict ms [] [] [] =
      (1, "EXCELLENT MATCH: Prototype closely matches tcpdump behavior") := by
  have hl : ms.length ≠ 0 := by simpa [List.length_eq_zero] using h
  have hsc : ((ms.length : ℚ)) / ((ms.length : ℚ) + ((0 : Nat) : ℚ)) = 1 := by
    rw [Nat.cast_zero, add_zero]
    exact div_self (Nat.cast_ne_zero.2 hl)
  simp only [calculateVerdict, List.length_nil, Nat.add_zero, Nat.zero_add]
  rw [if_neg (by omega)]
  simp only [Nat.cast_ofNat, Nat.cast_zero, add_zero] at hsc ⊢
  rw [hsc]
  norm_num

/-- C7: comparing any program against a program with the identical
instruction list scores exactly 1.0 with the excellent verdict; the
missing-in-second, extra-in-second, structural-diff and differences lists
are all empty, and the matches list is the purpose-tag matches followed
by the same-instruction-count note. -/
theorem claim_c7_self_comparison (instructions : List BPFInstruction) :
    (Compare instructions instructions).Score = 1 ∧
    (Compare instructions instructions).Verdict =
      "EXCELLENT MATCH: Prototype closely matches tcpdump behavior" ∧
    (Compare instructions instructions).MissingInPrototype = [] ∧
    (Compare instructions instructions).ExtraInPrototype = [] ∧
    (Compare instructions instructions).StructuralDiffs = [] ∧
    (Compare instructions instructions).Differences = [] ∧
    (Compare instructions instructions).Matches =
      matchList (analyzeSemantics instructions) (analyzeSemantics instructions) ++
        ["Same instruction count"] := by
  have hd := differenceList_self (analyzeSemantics instructions)
  have hm := missingList_self (analyzeSemantics instructions)
  have he := extraList_self (analyzeSemantics instructions)
  have hs := structuralDiffList_self (analyzeSemantics instructions) instructions.length
  have hnote : structuralMatchNote instructions.length instructions.length =
      ["Same instruction count"] := by simp [structuralMatchNote]
  have hne : matchList (analyzeSemantics instructions) (analyzeSemantics instructions) ++
      ["Same instruction count"] ≠ [] := by simp
  have hcv := calculateVerdict_all_matches _ hne
  refine ⟨?_, ?_, ?_, ?_, ?_, ?_, ?_⟩ <;>
    simp [Compare, hd, hm, he, hs, hnote, hcv]

lemma filterMap_ne_nil_of_isSome {α β : Type} (f : α → Option β) (l : List α) (a : α)
    (ha : a ∈ l) (hb : (f a).isSome = true) : l.filterMap f ≠ [] := by
  obtain ⟨b, hb'⟩ := Option.isSome_iff_exists.1 hb
  intro h
  have hmem : b ∈ l.filterMap f := List.mem_filterMap.2 ⟨a, ha, hb'⟩
  rw [h] at hmem
  exact absurd hmem (List.not_mem_nil b)

lemma countType_cons_self (s : SemanticInstruction) (rest : List SemanticInstruction) :
    0 < countType (s :: rest) s.type := by
  simp [countType, List.filter_cons]

lemma analyzeSemantics_cons (a : BPFInstruction) (rest : List BPFInstruction) :
    analyzeSemantics (a :: rest) =
      analyzeInstruction a.Code a.JT a.JF a.K 0 :: analyzeFrom 1 rest := rfl

lemma entry_lists_length_pos (semA semB : List SemanticInstruction) (t : InstructionType)
    (h : 0 < countType semA t) :
    0 < (matchList semA semB).length + ((differenceList semA semB).length +
      (missingList semA semB).length + (extraList semA semB).length) := by
  by_cases hb : 0 < countType semB t
  · by_cases he : countType semA t = countType semB t
    · have hne : matchList semA semB ≠ [] :=
        filterMap_ne_nil_of_isSome _ allTypes t (mem_allTypes t) (by simp [h, hb, he])
      have := List.length_pos.2 hne
      omega
    · have hne : differenceList semA semB ≠ [] :=
        filterMap_ne_nil_of_isSome _ allTypes t (mem_allTypes t) (by simp [h, hb, he])
      have := List.length_pos.2 hne
      omega
  · have hz : countType semB t = 0 := by omega
    have hne : missingList semA semB ≠ [] :=
      filterMap_ne_nil_of_isSome _ allTypes t (mem_allTypes t) (by simp [h, hz])
    have := List.length_pos.2 hne
    omega

lemma extra_list_length_pos (semA semB : List SemanticInstruction) (t : InstructionType)
    (ha : countType semA t = 0) (hb : 0 < countType semB t) :
    0 < (extraList semA semB).length := by
  have hne : extraList semA semB ≠ [] :=
    filterMap_ne_nil_of_isSome _ allTypes t (mem_allTypes t) (by simp [ha, hb])
  exact List.length_pos.2 hne

lemma compare_denominator_pos (iA iB : List BPFInstruction) :
    0 < (matchList (analyzeSemantics iA) (analyzeSemantics iB) ++
          structuralMatchNote iA.length iB.length).length +
        ((differenceList (analyzeSemantics iA) (analyzeSemantics iB)).length +
         (missingList (analyzeSemantics iA) (analyzeSemantics iB)).length +
         (extraList (analyzeSemantics iA) (analyzeSemantics iB)).length) := by
  by_cases hlen : iA.length = iB.length
  · simp [structuralMatchNote, hlen]
  · cases iA with
    | cons a rest =>
        have h0 := countType_cons_self (analyzeInstruction a.Code a.JT a.JF a.K 0)
          (analyzeFrom 1 rest)
        rw [← analyzeSemantics_cons] at h0
        have := entry_lists_length_pos (analyzeSemantics (a :: rest)) (analyzeSemantics iB) _ h0
        simp only [List.length_append]
        omega
    | nil =>
        cases iB with
        | nil => exact absurd rfl hlen
        | cons b rest =>
            have h0 := countType_cons_self (analyzeInstruction b.Code b.JT b.JF b.K 0)
              (analyzeFrom 1 rest)
            rw [← analyzeSemantics_cons] at h0
            have ha : countType (analyzeSemantics ([] : List BPFInstruction))
                ((analyzeInstruction b.Code b.JT b.JF b.K 0).type) = 0 := rfl
            have := extra_list_length_pos (analyzeSemantics ([] : List BPFInstruction))
              (analyzeSemantics (b :: rest)) _ ha h0
            simp only [List.length_append]
            omega

lemma compare_projections (iA iB : List BPFInstruction) :
    (Compare iA iB).Verdict = (calculateVerdict
        (matchList (analyzeSemantics iA) (analyzeSemantics iB) ++
          structuralMatchNote iA.length iB.length)
        (differenceList (analyzeSemantics iA) (analyzeSemantics iB))
        (missingList (analyzeSemantics iA) (analyzeSemantics iB))
        (extraList (analyzeSemantics iA) (analyzeSemantics iB))).2 ∧
    (Compare iA iB).Score = (calculateVerdict
        (matchList (analyzeSemantics iA) (analyzeSemantics iB) ++
          structuralMatchNote iA.length iB.length)
        (differenceList (analyzeSemantics iA) (analyzeSemantics iB))
        (missingList (analyzeSemantics iA) (analyzeSemantics iB))
        (extraList (analyzeSemantics iA) (analyzeSemantics iB))).1 ∧
    (Compare iA iB).MissingInPrototype =
      missingList (analyzeSemantics iA) (analyzeSemantics iB) := ⟨rfl, rfl, rfl⟩

lemma calculateVerdict_zero_matches (ds ms es : List String)
    (h : 0 < ds.length + ms.length + es.length) :
    calculateVerdict [] ds ms es =
      (0, if ms.any (fun m => strContains m "Check IP Protocol") = true then
            "CRITICAL ISSUE: POOR MATCH: Prototype differs significantly from tcpdump approach (Missing IP validation)"
          else "POOR MATCH: Prototype differs significantly from tcpdump approach") := by
  simp only [calculateVerdict, List.length_nil]
  rw [if_neg (by omega)]
  simp only [Nat.cast_zero, zero_div, Nat.zero_add]
  norm_num
  split <;> rfl

lemma compare_nil_nil_eval :
    (Compare [] []).Score = 1 ∧
    (Compare [] []).Verdict = "EXCELLENT MATCH: Prototype closely matches tcpdump behavior" := by
  obtain ⟨hv, hs, -⟩ := compare_projections [] []
  have hm : matchList (analyzeSemantics []) (analyzeSemantics []) = [] := by decide
  have hn : structuralMatchNote ([] : List BPFInstruction).length
      ([] : List BPFInstruction).length = ["Same instruction count"] := rfl
  have hd : differenceList (analyzeSemantics []) (analyzeSemantics []) = [] := rfl
  have hmi : missingList (analyzeSemantics []) (analyzeSemantics []) = [] := rfl
  have he : extraList (analyzeSemantics []) (analyzeSemantics []) = [] := rfl
  have hcv := calculateVerdict_all_matches ["Same instruction count"] (by simp)
  constructor
  · rw [hs, hm, hn, hd, hmi, he, List.nil_append, hcv]
  · rw [hv, hm, hn, hd, hmi, he, List.nil_append, hcv]

/-- C5 counterexample: for the concrete pair of empty instruction lists
— which the claim itself names as an instance of "zero comparable
instructions on both sides" — Compare does NOT return score 0.0 with the
inconclusive verdict: the structural pass records the equal-count match
note, so the score is 1.0 and the verdict is excellent. -/
theorem claim_c5_counterexample :
    ¬((Compare [] []).Score = 0 ∧
      (Compare [] []).Verdict = "INCONCLUSIVE: No comparable instructions found") := by
  intro h
  have h1 := compare_nil_nil_eval.1
  rw [h.1] at h1
  exact absurd h1 (by norm_num)

/-- C5 amended: comparing two programs with empty instruction lists
yields score 1.0 and the excellent verdict (the same-instruction-count
note makes the denominator nonzero — no division fault occurs), while the
explicit inconclusive branch (score 0.0, "INCONCLUSIVE: No comparable
instructions found") belongs to calculateVerdict and fires exactly when
all four classified lists are empty — a state Compare never produces. -/
theorem claim_c5_empty_compare_excellent :
    (Compare [] []).Score = 1 ∧
    (Compare [] []).Verdict = "EXCELLENT MATCH: Prototype closely matches tcpdump behavior" ∧
    calculateVerdict [] [] [] [] = (0, "INCONCLUSIVE: No comparable instructions found") := by
  exact ⟨compare_nil_nil_eval.1, compare_nil_nil_eval.2, by decide⟩

/-- C6 amended: for every pair of input programs the verdict Compare
returns is the threshold verdict of the computed score (≥0.8 excellent,
≥0.6 good, ≥0.4 partial, else poor — the inconclusive branch is
unreachable through Compare), escalated with the "CRITICAL ISSUE" prefix
exactly when some missing-in-second entry contains the ethertype check's
display name "Check IP Protocol"; entries naming only the protocol check
("Check Protocol") do not trigger the prefix. -/
theorem claim_c6_verdict_thresholds_and_critical (iA iB : List BPFInstruction) :
    (Compare iA iB).Verdict =
      if ((Compare iA iB).MissingInPrototype.any
            (fun m => strContains m (typeName .CheckIP))) = true then
        "CRITICAL ISSUE: " ++ specThresholdVerdict (Compare iA iB).Score ++
          " (Missing IP validation)"
      else specThresholdVerdict (Compare iA iB).Score := by
  have hpos := compare_denominator_pos iA iB
  obtain ⟨hv, hs, hm⟩ := compare_projections iA iB
  rw [hv, hs, hm]
  simp only [calculateVerdict]
  rw [if_neg (by omega)]
  simp only [specThresholdVerdict]
  rfl

lemma compare_c6_cex_verdict :
    (Compare [⟨0x30, 0, 0, 0x17⟩, ⟨0x15, 0, 0, 6⟩] [⟨0x28, 0, 0, 0xc⟩]).Verdict =
      "POOR MATCH: Prototype differs significantly from tcpdump approach" := by
  obtain ⟨hv, -, -⟩ := compare_projections [⟨0x30, 0, 0, 0x17⟩, ⟨0x15, 0, 0, 6⟩] [⟨0x28, 0, 0, 0xc⟩]
  have h1 : matchList (analyzeSemantics [⟨0x30, 0, 0, 0x17⟩, ⟨0x15, 0, 0, 6⟩])
      (analyzeSemantics [⟨0x28, 0, 0, 0xc⟩]) = [] := by decide
  have h2 : structuralMatchNote ([⟨0x30, 0, 0, 0x17⟩, ⟨0x15, 0, 0, 6⟩] : List BPFInstruction).length
      ([⟨0x28, 0, 0, 0xc⟩] : List BPFInstruction).length = [] := rfl
  have hds : differenceList (analyzeSemantics [⟨0x30, 0, 0, 0x17⟩, ⟨0x15, 0, 0, 6⟩])
      (analyzeSemantics [⟨0x28, 0, 0, 0xc⟩]) = [] := by decide
  have hms : missingList (analyzeSemantics [⟨0x30, 0, 0, 0x17⟩, ⟨0x15, 0, 0, 6⟩])
      (analyzeSemantics [⟨0x28, 0, 0, 0xc⟩]) =
      ["Missing Load IP Protocol (1 instructions)", "Missing Check Protocol (1 instructions)"] := by
    decide
  have hes : extraList (analyzeSemantics [⟨0x30, 0, 0, 0x17⟩, ⟨0x15, 0, 0, 6⟩])
      (analyzeSemantics [⟨0x28, 0, 0, 0xc⟩]) = ["Extra Load Ethernet Type (1 instructions)"] := by
    decide
  rw [hv, h1, h2, hds, hms, hes, List.nil_append]
  rw [calculateVerdict_zero_matches _ _ _ (by simp)]
  have hc : (["Missing Load IP Protocol (1 instructions)",
      "Missing Check Protocol (1 instructions)"].any
      (fun m => strContains m "Check IP Protocol")) = false := by decide
  rw [hc]
  rfl

/-- C6 counterexample: comparing a program whose tags include the
protocol check against one lacking it produces a missing-in-second entry
naming the protocol check, yet the verdict is the plain poor-match string
with no critical prefix — refuting the claim's "or names the protocol
check" disjunct. -/
theorem claim_c6_counterexample :
    (∃ m ∈ (Compare [⟨0x30, 0, 0, 0x17⟩, ⟨0x15, 0, 0, 6⟩]
        [⟨0x28, 0, 0, 0xc⟩]).MissingInPrototype,
        strContains m (typeName .CheckProtocol) = true) ∧
    (Compare [⟨0x30, 0, 0, 0x17⟩, ⟨0x15, 0, 0, 6⟩] [⟨0x28, 0, 0, 0xc⟩]).Verdict =
      "POOR MATCH: Prototype differs significantly from tcpdump approach" ∧
    strContains (Compare [⟨0x30, 0, 0, 0x17⟩, ⟨0x15, 0, 0, 6⟩]
        [⟨0x28, 0, 0, 0xc⟩]).Verdict "CRITICAL" = false := by
  refine ⟨?_, compare_c6_cex_verdict, ?_⟩
  · obtain ⟨-, -, hm⟩ := compare_projections [⟨0x30, 0, 0, 0x17⟩, ⟨0x15, 0, 0, 6⟩]
      [⟨0x28, 0, 0, 0xc⟩]
    rw [hm]
    decide
  · rw [compare_c6_cex_verdict]
    decide

/-- C9: the Semantic Classifier's output is independent of the branch
fields of its input: for every opcode, immediate and index, any two
branch-field pairs produce identical SemanticInstruction content (the
function is pure, so determinism is immediate). -/
theorem claim_c9_classifier_branch_independent (code k index jt jf jt' jf' : Nat) :
    analyzeInstruction code jt jf k index = analyzeInstruction code jt' jf' k index := rfl

lemma analyzeInstruction_type_ne (code jt jf k idx : Nat) :
    (analyzeInstruction code jt jf k idx).type ≠ .CheckSourcePort ∧
    (analyzeInstruction code jt jf k idx).type ≠ .CheckDestIP := by
  constructor <;>
  · simp only [analyzeInstruction]
    by_cases h0 : code = 0x28
    · rw [if_pos h0]
      first
      | (split_ifs <;> simp)
      | simp
    · rw [if_neg h0]
      by_cases h1 : code = 0x30
      · rw [if_pos h1]
        first
        | (split_ifs <;> simp)
        | simp
      · rw [if_neg h1]
        by_cases h2 : code = 0x20
        · rw [if_pos h2]
          first
          | (split_ifs <;> simp)
          | simp
        · rw [if_neg h2]
          by_cases h3 : code = 0x48
          · rw [if_pos h3]
            first
            | (split_ifs <;> simp)
            | simp
          · rw [if_neg h3]
            by_cases h4 : code = 0x15
            · rw [if_pos h4]
              first
              | (split_ifs <;> simp)
              | simp
            · rw [if_neg h4]
              by_cases h5 : code = 0x45
              · rw [if_pos h5]
                first
                | (split_ifs <;> simp)
                | simp
              · rw [if_neg h5]
                by_cases h6 : code = 0xb1
                · rw [if_pos h6]
                  first
                  | (split_ifs <;> simp)
                  | simp
                · rw [if_neg h6]
                  by_cases h7 : code = 0x06
                  · rw [if_pos h7]
                    first
                    | (split_ifs <;> simp)
                    | simp
                  · rw [if_neg h7]
                    simp

lemma countType_analyzeFrom_zero (t : InstructionType)
    (h : ∀ code jt jf k idx, (analyzeInstruction code jt jf k idx).type ≠ t)
    (l : List BPFInstruction) : ∀ i : Nat, countType (analyzeFrom i l) t = 0 := by
  induction l with
  | nil => intro i; rfl
  | cons a rest ih =>
      intro i
      have hne := h a.Code a.JT a.JF a.K i
      simp only [analyzeFrom, countType, List.filter_cons]
      rw [if_neg (by simpa using hne)]
      exact ih (i + 1)

/-- C10: the Semantic Classifier never returns the source-port-check tag
and never returns the destination-address-check tag, so the semantic
sequence of any program contains zero instructions with either tag — no
comparison can record a match, difference, missing or extra entry for
them. -/
theorem claim_c10_unreachable_tags :
    (∀ code jt jf k index : Nat,
      (analyzeInstruction code jt jf k index).type ≠ .CheckSourcePort ∧
      (analyzeInstruction code jt jf k index).type ≠ .CheckDestIP) ∧
    (∀ instructions : List BPFInstruction,
      countType (analyzeSemantics instructions) .CheckSourcePort = 0 ∧
      countType (analyzeSemantics instructions) .CheckDestIP = 0) := by
  refine ⟨fun code jt jf k index => analyzeInstruction_type_ne code jt jf k index,
    fun instructions => ⟨?_, ?_⟩⟩
  · exact countType_analyzeFrom_zero _ (fun c jt jf k i => (analyzeInstruction_type_ne c jt jf k i).1)
      instructions 0
  · exact countType_analyzeFrom_zero _ (fun c jt jf k i => (analyzeInstruction_type_ne c jt jf k i).2)
      instructions 0

lemma updateJT_length (l : List BPFInstruction) (idx jt jf : Nat) :
    (updateJumpTargets l idx jt jf).length = l.length := by
  induction l generalizing idx with
  | nil => rfl
  | cons a rest ih => cases idx <;> simp [updateJumpTargets, ih]

lemma updateJT_getElem_ne (l : List BPFInstruction) (idx jt jf : Nat) (j : Nat) (h : j ≠ idx) :
    (updateJumpTargets l idx jt jf)[j]? = l[j]? := by
  induction l generalizing idx j with
  | nil => rfl
  | cons a rest ih =>
      cases idx with
      | zero =>
          cases j with
          | zero => exact absurd rfl h
          | succ jj => simp [updateJumpTargets]
      | succ n =>
          cases j with
          | zero => simp [updateJumpTargets]
          | succ jj =>
              simp only [updateJumpTargets, List.getElem?_cons_succ]
              exact ih n jj (fun hh => h (by omega))

lemma updateJT_getElem_eq (l : List BPFInstruction) (idx jt jf : Nat) :
    (updateJumpTargets l idx jt jf)[idx]? =
      (l[idx]?).map (fun i => ⟨i.Code, jt, jf, i.K⟩) := by
  induction l generalizing idx with
  | nil => rfl
  | cons a rest ih => cases idx <;> simp [updateJumpTargets, ih]

/-- C8 amended: updateBranchTargets with a position at or beyond the end
of the list is a silent no-op returning the list unchanged; with a
NEGATIVE position it is not a no-op — the Go guard `position < len` lets
the negative index through to the slice access, which faults (modelled as
`none`); with an in-range position it overwrites exactly the branch
fields of the instruction at that position, preserving the length, every
other instruction, and the opcode/immediate of the updated one. -/
theorem claim_c8_update_jump_targets (insts : List BPFInstruction) (idx : Int) (jt jf : Nat) :
    ((insts.length : Int) ≤ idx → UpdateJumpTargetsGo insts idx jt jf = some insts) ∧
    (idx < 0 → UpdateJumpTargetsGo insts idx jt jf = none) ∧
    (0 ≤ idx → idx < (insts.length : Int) →
      UpdateJumpTargetsGo insts idx jt jf = some (updateJumpTargets insts idx.toNat jt jf) ∧
      (updateJumpTargets insts idx.toNat jt jf).length = insts.length ∧
      (∀ j : Nat, j ≠ idx.toNat → (updateJumpTargets insts idx.toNat jt jf)[j]? = insts[j]?) ∧
      (updateJumpTargets insts idx.toNat jt jf)[idx.toNat]? =
        (insts[idx.toNat]?).map (fun i => ⟨i.Code, jt, jf, i.K⟩)) := by
  refine ⟨fun h => ?_, fun h => ?_, fun h1 h2 => ?_⟩
  · rw [UpdateJumpTargetsGo, if_neg (by omega)]
  · rw [UpdateJumpTargetsGo, if_pos (by omega), if_neg (by omega)]
  · exact ⟨by rw [UpdateJumpTargetsGo, if_pos h2, if_pos h1],
      updateJT_length insts idx.toNat jt jf,
      fun j hj => updateJT_getElem_ne insts idx.toNat jt jf j hj,
      updateJT_getElem_eq insts idx.toNat jt jf⟩

/-- C8 counterexample: at position -1 the call faults (none) instead of
being a silent no-op that leaves the instruction list unchanged. -/
theorem claim_c8_counterexample :
    UpdateJumpTargetsGo [⟨0x28, 0, 0, 12⟩] (-1) 9 9 = none ∧
    UpdateJumpTargetsGo [⟨0x28, 0, 0, 12⟩] (-1) 9 9 ≠ some [⟨0x28, 0, 0, 12⟩] := by
  decide

/-- Witness for the amended C8: beyond-range no-op at index 5, fault at
index -2, and in-range update at index 1. -/
theorem claim_c8_witness :
    UpdateJumpTargetsGo [⟨0x28, 0, 0, 12⟩] 5 9 9 = some [⟨0x28, 0, 0, 12⟩] ∧
    UpdateJumpTargetsGo [⟨0x28, 0, 0, 12⟩] (-2) 9 9 = none ∧
    UpdateJumpTargetsGo [⟨0x28, 0, 0, 12⟩, ⟨0x15, 0, 0, 6⟩] 1 9 8 =
      some (updateJumpTargets [⟨0x28, 0, 0, 12⟩, ⟨0x15, 0, 0, 6⟩] ((1 : Int)).toNat 9 8) :=
  ⟨(claim_c8_update_jump_targets [⟨0x28, 0, 0, 12⟩] 5 9 9).1 (by decide),
   (claim_c8_update_jump_targets [⟨0x28, 0, 0, 12⟩] (-2) 9 9).2.1 (by decide),
   ((claim_c8_update_jump_targets [⟨0x28, 0, 0, 12⟩, ⟨0x15, 0, 0, 6⟩] 1 9 8).2.2
      (by decide) (by decide)).1⟩
